import Mathlib

/-!
Verification of `tools/generate.py`, an Advent-of-Code solution-module
scaffolding script.  Text is modelled at the character level (`Str` is a
list of characters); a file is a list of lines, each line a `Str` that may
carry its trailing newline, exactly as Python's `for line in f` yields them.
Every definition below is a direct transcription of the corresponding
Python construct in `tools/generate.py`.
-/

set_option autoImplicit false

/-- A Python string, modelled as a list of characters. -/
abbrev Str := List Char

/-- The ASCII whitespace characters removed by Python's `str.strip()`. -/
def pyIsSpace (c : Char) : Bool :=
  c == ' ' || c == '\t' || c == '\n' || c == '\x0d' || c == '\x0b' || c == '\x0c'

/-- Python `str.strip()`: drop whitespace from both ends. -/
def pyStrip (l : Str) : Str :=
  ((l.dropWhile pyIsSpace).reverse.dropWhile pyIsSpace).reverse

/-- Python `str.lower()` (ASCII case fold suffices for this program). -/
def pyLower (l : Str) : Str := l.map Char.toLower

/-- Python `str(d)` for an `int` value `d`. -/
def pyStr (d : Int) : Str := (toString d).data

/-- Python `format(d, "02")`: decimal rendering zero-padded to a minimum
width of 2, the padding inserted after the sign. -/
def pyFmt02 (d : Int) : Str :=
  let digits : Str := (toString d.natAbs).data
  let sign : Str := if d < 0 then ['-'] else []
  sign ++ List.replicate (2 - (sign.length + digits.length)) '0' ++ digits

/-- The sentinel argument passed to `update_file` in `__main__`:
`"let result = match args.day"`. -/
def sentinelStr : Str := ("let result = match args.day").data

/-- The `before` marker argument passed to `update_file` in `__main__`:
`"_ =>"`. -/
def beforeStr : Str := ("_ =>").data

/-- The loop body of `update_file`: scan the lines with the `found` flag,
setting it when a stripped line starts with `sentinel`, and emitting
`value` in front of any line whose stripped text starts with `before`
while the flag is set.  Transcribed from `tools/generate.py` lines 54-64. -/
def updateLines (sentinel before value : Str) (found : Bool) : List Str → List Str
  | [] => []
  | line :: rest =>
    let s := pyStrip line
    let fd := found || List.isPrefixOf sentinel s
    if fd && List.isPrefixOf before s then
      value :: line :: updateLines sentinel before value fd rest
    else
      line :: updateLines sentinel before value fd rest

/-- `update_file(path, sentinel, before, value)` on a file whose lines are
`lines`: the line sequence written back.  The `found` flag starts false. -/
def update_file (sentinel before value : Str) (lines : List Str) : List Str :=
  updateLines sentinel before value false lines

/-- `confirm(prompt)`: lowercase the operator's answer and accept exactly
`"y"` or `"yes"`. -/
def confirm (answer : Str) : Bool :=
  let choice := pyLower answer
  choice == ("y").data || choice == ("yes").data

/-- `f"day{day:02}"`, the module name computed in `__main__`. -/
def modName (day : Int) : Str := ("day").data ++ pyFmt02 day

/-- The line appended to `src/solutions/mod.rs`: `f"pub mod {mod_name};\n"`. -/
def moduleDecl (day : Int) : Str := ("pub mod ").data ++ modName day ++ (";\n").data

/-- The module-list append step (`open(solution_mod, "a+")` followed by a
single `f.write`): one declaration line is appended to the file. -/
def appendModuleDecl (day : Int) (lines : List Str) : List Str :=
  lines ++ [moduleDecl day]

/-- The `value` argument passed to `update_file` in `__main__`:
`f"        {day} => solutions::{mod_name}::exec(input),\n"`. -/
def dispatchLine (day : Int) : Str :=
  ("        ").data ++ pyStr day ++ (" => solutions::").data ++ modName day
    ++ ("::exec(input),\n").data

/-- The literal segment of `SOLUTION_TEMPLATE` before the first `{day}`. -/
def tmplSeg1 : Str := ("//! Solution for Advent of Code 2023, Day ").data

/-- The literal segment of `SOLUTION_TEMPLATE` between the two `{day}`
occurrences. -/
def tmplSeg2 : Str := (".\n//!\n//! # Day ").data

/-- The literal segment of `SOLUTION_TEMPLATE` after `{title}` (the Python
`{{`/`}}` escapes render as plain braces). -/
def tmplSeg3 : Str :=
  ("\n//!\n//! ## Part One\n//!\n//! ## Part Two\n//!\n\nuse std::path::Path;\n\nuse anyhow::Result;\n\nfn part1() \x7b\n    println!(\"Part 1: TODO\");\n\x7d\n\nfn part2() \x7b\n    println!(\"Part 2: TODO\");\n\x7d\n\n/// Executes the solution with provided input file.\npub fn exec<P: AsRef<Path>>(_path: P) -> Result<()> \x7b\n    part1();\n    part2();\n\n    unimplemented!()\n\x7d\n").data

/-- `SOLUTION_TEMPLATE.format(day=day, title=titleArg)`: substitute the day
number (twice) and the pre-formatted title argument into the skeleton. -/
def renderTemplate (day : Int) (titleArg : Str) : Str :=
  tmplSeg1 ++ pyStr day ++ tmplSeg2 ++ pyStr day ++ titleArg ++ tmplSeg3

/-- The `title` argument of the `format` call:
`f": {title}" if title else ""`, with `title = args.title or ""`. -/
def titleArgOf (title : Option Str) : Str :=
  let t := title.getD []
  if t.isEmpty then [] else (": ").data ++ t

/-- Snapshot of the parts of the filesystem the script touches, as they
stand when the run starts.  `mod_rs` is the content of
`src/solutions/dayNN/mod.rs` once written (`none` while absent);
`main_lines` and `solution_mod_lines` are the line sequences of
`src/main.rs` and `src/solutions/mod.rs`. -/
structure FS where
  parent_exists : Bool
  parent_is_dir : Bool
  cargo_lock_exists : Bool
  cargo_toml_exists : Bool
  src_exists : Bool
  src_is_file : Bool
  mod_dir_exists : Bool
  mod_rs : Option Str
  main_exists : Bool
  main_lines : List Str
  solution_mod_lines : List Str
deriving DecidableEq

/-- How a run of the script terminates. `bailed printed code` is `bail`:
the line `printed` is printed and `sys.exit(code)` is called; `exited c`
is a bare `sys.exit(c)`; `raised` is an uncaught Python exception
(traceback, non-zero process status); `success` is normal completion. -/
inductive RunResult where
  | bailed (printed : Str) (code : Nat)
  | exited (code : Nat)
  | raised
  | success
deriving DecidableEq

/-- `bail(msg)`: print `f"error: {msg}"` and exit with code 1. -/
def bailOut (msg : Str) : RunResult := .bailed (("error: ").data ++ msg) 1

/-- `validate_parent(path)`: `some msg` when the function bails with
`msg`, `none` when every check passes.  `parentDisplay` stands for
`path.resolve()` in the printed messages. -/
def validate_parent (parentDisplay : Str) (fs : FS) : Option Str :=
  if !fs.parent_exists || !fs.parent_is_dir then
    some (("parent directory `").data ++ parentDisplay ++ ("` does not exist").data)
  else if !fs.cargo_lock_exists then
    some (("parent directory is not suitable\n  - expected to find `Cargo.lock` in `").data
      ++ parentDisplay ++ ("`").data)
  else if !fs.cargo_toml_exists then
    some (("parent directory is not suitable\n  - expected to find `Cargo.toml` in `").data
      ++ parentDisplay ++ ("`").data)
  else
    none

/-- The `if __name__ == "__main__"` block, from `validate_parent` to the end,
on a filesystem snapshot `fs`.  `answer` is the operator's reply to the
confirmation prompt, `fmt_ok` whether the external `cargo fmt` command exits
with status 0, `parentDisplay` the resolved parent path used in messages.
`mod_dir.mkdir()` raises `FileExistsError` when the directory already exists
and `open(main_file, "r")` raises `FileNotFoundError` when `main.rs` is
absent; both surface as `RunResult.raised`. -/
def runMain (day : Int) (title : Option Str) (no_fmt : Bool) (answer : Str)
    (fmt_ok : Bool) (parentDisplay : Str) (fs : FS) : RunResult × FS :=
  match validate_parent parentDisplay fs with
  | some msg => (bailOut msg, fs)
  | none =>
    if fs.src_is_file then
      (bailOut (("`src` path exists and is not a directory").data), fs)
    else if !fs.src_exists then
      (bailOut (("`src` directory does not exist").data), fs)
    else if fs.mod_dir_exists && !confirm answer then
      (.exited 0, fs)
    else if fs.mod_dir_exists then
      (.raised, fs)
    else
      let fs1 : FS := { fs with mod_dir_exists := true,
                                mod_rs := some (renderTemplate day (titleArgOf title)) }
      if !fs.main_exists then
        (.raised, fs1)
      else
        let fs2 : FS := { fs1 with
          main_lines := update_file sentinelStr beforeStr (dispatchLine day) fs1.main_lines }
        let fs3 : FS := { fs2 with
          solution_mod_lines := appendModuleDecl day fs2.solution_mod_lines }
        if no_fmt then (.success, fs3)
        else if fmt_ok then (.success, fs3)
        else (bailOut (("command `cargo fmt` exited with non-zero status code").data), fs3)

/-- Spec-side description of the armed scanner (section 4.4 of the design
note): one copy of `value` is inserted immediately before each line whose
stripped text starts with the marker, every line is kept. -/
def specInsertEach (before value : Str) : List Str → List Str
  | [] => []
  | x :: xs =>
    if List.isPrefixOf before (pyStrip x) then
      value :: x :: specInsertEach before value xs
    else
      x :: specInsertEach before value xs

/-- While the flag is still false, lines that do not start with the sentinel
pass through the scanner unchanged and leave the flag false. -/
theorem updateLines_false_append (s b v : Str) (A R : List Str)
    (hA : ∀ l ∈ A, List.isPrefixOf s (pyStrip l) = false) :
    updateLines s b v false (A ++ R) = A ++ updateLines s b v false R := by
  induction A with
  | nil => rfl
  | cons a as ih =>
    have ha := hA a (List.mem_cons_self a as)
    have ih' := ih (fun l hl => hA l (List.mem_cons_of_mem a hl))
    simp [updateLines, ha, ih']

/-- Once the flag is set it stays set, and lines that do not start with the
marker pass through unchanged. -/
theorem updateLines_true_skip (s b v : Str) (B R : List Str)
    (hB : ∀ l ∈ B, List.isPrefixOf b (pyStrip l) = false) :
    updateLines s b v true (B ++ R) = B ++ updateLines s b v true R := by
  induction B with
  | nil => rfl
  | cons x xs ih =>
    have hx := hB x (List.mem_cons_self x xs)
    have ih' := ih (fun l hl => hB l (List.mem_cons_of_mem x hl))
    simp [updateLines, hx, ih']

/-- With the flag set, the scanner is exactly the spec-side description:
`value` goes in front of every marker line, independent of the sentinel. -/
theorem updateLines_true_eq_specInsertEach (s b v : Str) (L : List Str) :
    updateLines s b v true L = specInsertEach b v L := by
  induction L with
  | nil => rfl
  | cons x xs ih =>
    simp only [updateLines, specInsertEach, Bool.true_or, Bool.true_and, ih]

/-- The armed scanner grows the file by one line per marker line. -/
theorem specInsertEach_length (b v : Str) (L : List Str) :
    (specInsertEach b v L).length
      = L.length + L.countP (fun x => List.isPrefixOf b (pyStrip x)) := by
  induction L with
  | nil => rfl
  | cons x xs ih =>
    by_cases hx : List.isPrefixOf b (pyStrip x) = true
    · simp [specInsertEach, hx, List.countP_cons, ih]
      omega
    · simp [specInsertEach, hx, List.countP_cons, ih]
      omega

/-- Two candidate prefixes whose first characters differ cannot both be
prefixes of one string. -/
theorem isPrefixOf_false_of_head {a b : Char} (hne : (b == a) = false)
    (as bs t : Str) (h : List.isPrefixOf (a :: as) t = true) :
    List.isPrefixOf (b :: bs) t = false := by
  match t with
  | [] => simp [List.isPrefixOf] at h
  | c :: cs =>
    simp only [List.isPrefixOf, Bool.and_eq_true, beq_iff_eq] at h
    have hc : c = a := h.1.symm
    subst hc
    simp [List.isPrefixOf, hne]

/-- No string starts with both the sentinel of `__main__` and its marker:
their first characters differ. -/
theorem sentinel_not_before (t : Str)
    (h : List.isPrefixOf sentinelStr t = true) :
    List.isPrefixOf beforeStr t = false := by
  have hs : sentinelStr = 'l' :: ("et result = match args.day").data := rfl
  have hb : beforeStr = '_' :: (" =>").data := rfl
  rw [hs] at h
  rw [hb]
  exact isPrefixOf_false_of_head (by decide) _ _ t h

/-- A marker-free suffix passes through the armed scanner unchanged. -/
theorem updateLines_true_no_marker (s b v : Str) (C : List Str)
    (hC : ∀ l ∈ C, List.isPrefixOf b (pyStrip l) = false) :
    updateLines s b v true C = C := by
  have h := updateLines_true_skip s b v C [] hC
  simpa [updateLines] using h

/-- Claim C1: for a dispatch file in which exactly one line's stripped text
starts with the sentinel and exactly one later line's stripped text starts
with the marker, `update_file` writes back the same lines with exactly one
new line, the given value, inserted immediately before that marker line. -/
theorem update_file_single_marker (v ls lm : Str) (A B C : List Str)
    (hsA : ∀ l ∈ A, List.isPrefixOf sentinelStr (pyStrip l) = false)
    (hls : List.isPrefixOf sentinelStr (pyStrip ls) = true)
    (_hsB : ∀ l ∈ B, List.isPrefixOf sentinelStr (pyStrip l) = false)
    (_hsm : List.isPrefixOf sentinelStr (pyStrip lm) = false)
    (_hsC : ∀ l ∈ C, List.isPrefixOf sentinelStr (pyStrip l) = false)
    (hbm : List.isPrefixOf beforeStr (pyStrip lm) = true)
    (hbB : ∀ l ∈ B, List.isPrefixOf beforeStr (pyStrip l) = false)
    (hbC : ∀ l ∈ C, List.isPrefixOf beforeStr (pyStrip l) = false) :
    update_file sentinelStr beforeStr v (A ++ ls :: (B ++ lm :: C))
      = A ++ ls :: (B ++ v :: lm :: C) := by
  have hbls : List.isPrefixOf beforeStr (pyStrip ls) = false :=
    sentinel_not_before _ hls
  unfold update_file
  rw [updateLines_false_append _ _ _ A _ hsA]
  simp only [updateLines, hls, hbls, Bool.or_true, Bool.false_or, Bool.and_false,
    Bool.false_eq_true, if_false]
  rw [updateLines_true_skip _ _ _ B _ hbB]
  simp only [updateLines, hbm, Bool.true_or, Bool.true_and, if_true]
  rw [updateLines_true_no_marker _ _ _ C hbC]

/-- Witness for claim C1 on a concrete five-line dispatch file. -/
theorem update_file_single_marker_witness :
    update_file sentinelStr beforeStr (dispatchLine 2)
        ([("use std::env;\n").data]
          ++ ("    let result = match args.day \x7b\n").data
          :: ([("        1 => solutions::day01::exec(input),\n").data]
              ++ ("        _ => unimplemented!(),\n").data :: [("    \x7d;\n").data]))
      = [("use std::env;\n").data]
          ++ ("    let result = match args.day \x7b\n").data
          :: ([("        1 => solutions::day01::exec(input),\n").data]
              ++ dispatchLine 2
              :: ("        _ => unimplemented!(),\n").data :: [("    \x7d;\n").data]) :=
  update_file_single_marker (dispatchLine 2)
    (("    let result = match args.day \x7b\n").data)
    (("        _ => unimplemented!(),\n").data)
    [("use std::env;\n").data]
    [("        1 => solutions::day01::exec(input),\n").data]
    [("    \x7d;\n").data]
    (by decide) (by decide) (by decide) (by decide) (by decide)
    (by decide) (by decide) (by decide)

/-- Claim C2: when no line's stripped text starts with the sentinel,
`update_file` writes back exactly the lines it read: no insertion, the file
is byte-for-byte unchanged. -/
theorem update_file_no_sentinel (v : Str) (lines : List Str)
    (h : ∀ l ∈ lines, List.isPrefixOf sentinelStr (pyStrip l) = false) :
    update_file sentinelStr beforeStr v lines = lines := by
  unfold update_file
  have h2 := updateLines_false_append sentinelStr beforeStr v lines [] h
  simpa [updateLines] using h2

/-- Witness for claim C2 on a concrete sentinel-free file. -/
theorem update_file_no_sentinel_witness :
    update_file sentinelStr beforeStr (dispatchLine 3)
        [("fn main() \x7b\n").data, ("    _ => unimplemented!(),\n").data, ("\x7d\n").data]
      = [("fn main() \x7b\n").data, ("    _ => unimplemented!(),\n").data, ("\x7d\n").data] :=
  update_file_no_sentinel (dispatchLine 3)
    [("fn main() \x7b\n").data, ("    _ => unimplemented!(),\n").data, ("\x7d\n").data]
    (by decide)

/-- Claim C8: after the (unique, first) sentinel line, `update_file` inserts
one copy of the value before every line whose stripped text starts with the
marker prefix — the scan does not disarm — and the output length grows by
exactly the number of such marker lines.  The comparisons strip the line
and test a string prefix. -/
theorem update_file_inserts_each (v ls : Str) (A rest : List Str)
    (hA : ∀ l ∈ A, List.isPrefixOf sentinelStr (pyStrip l) = false)
    (hls : List.isPrefixOf sentinelStr (pyStrip ls) = true)
    (_hk : 1 ≤ rest.countP (fun x => List.isPrefixOf beforeStr (pyStrip x))) :
    update_file sentinelStr beforeStr v (A ++ ls :: rest)
        = A ++ ls :: specInsertEach beforeStr v rest
      ∧ (update_file sentinelStr beforeStr v (A ++ ls :: rest)).length
          = (A ++ ls :: rest).length
            + rest.countP (fun x => List.isPrefixOf beforeStr (pyStrip x)) := by
  have hbls : List.isPrefixOf beforeStr (pyStrip ls) = false :=
    sentinel_not_before _ hls
  have heq : update_file sentinelStr beforeStr v (A ++ ls :: rest)
      = A ++ ls :: specInsertEach beforeStr v rest := by
    unfold update_file
    rw [updateLines_false_append _ _ _ A _ hA]
    simp only [updateLines, hls, hbls, Bool.or_true, Bool.false_or, Bool.and_false,
      Bool.false_eq_true, if_false]
    rw [updateLines_true_eq_specInsertEach]
  refine ⟨heq, ?_⟩
  rw [heq]
  simp only [List.length_append, List.length_cons, specInsertEach_length]
  omega

/-- Witness for claim C8 on a concrete file with two marker lines after the
sentinel. -/
theorem update_file_inserts_each_witness :
    update_file sentinelStr beforeStr (dispatchLine 4)
        ([("x\n").data]
          ++ ("let result = match args.day \x7b\n").data
          :: [("  _ => a,\n").data, ("y\n").data, ("_ => b,\n").data])
        = [("x\n").data]
            ++ ("let result = match args.day \x7b\n").data
            :: specInsertEach beforeStr (dispatchLine 4)
                [("  _ => a,\n").data, ("y\n").data, ("_ => b,\n").data]
      ∧ (update_file sentinelStr beforeStr (dispatchLine 4)
          ([("x\n").data]
            ++ ("let result = match args.day \x7b\n").data
            :: [("  _ => a,\n").data, ("y\n").data, ("_ => b,\n").data])).length
          = ([("x\n").data]
              ++ ("let result = match args.day \x7b\n").data
              :: [("  _ => a,\n").data, ("y\n").data, ("_ => b,\n").data]).length
            + List.countP (fun x => List.isPrefixOf beforeStr (pyStrip x))
                [("  _ => a,\n").data, ("y\n").data, ("_ => b,\n").data] :=
  update_file_inserts_each (dispatchLine 4)
    (("let result = match args.day \x7b\n").data)
    [("x\n").data]
    [("  _ => a,\n").data, ("y\n").data, ("_ => b,\n").data]
    (by decide) (by decide) (by decide)

/-- Claim C9: the marker check is applied to the very line that set the
flag: when a line's stripped text starts with both the sentinel and the
marker, and no earlier line matched the sentinel, the value is inserted
immediately before that same line. -/
theorem update_file_dual_line (s b v l : Str) (A B : List Str)
    (hA : ∀ x ∈ A, List.isPrefixOf s (pyStrip x) = false)
    (hs : List.isPrefixOf s (pyStrip l) = true)
    (hb : List.isPrefixOf b (pyStrip l) = true) :
    update_file s b v (A ++ l :: B)
      = A ++ v :: l :: updateLines s b v true B := by
  unfold update_file
  rw [updateLines_false_append _ _ _ A _ hA]
  simp only [updateLines, hs, hb, Bool.or_true, Bool.false_or, Bool.and_self, if_true]

/-- Witness for claim C9 on a concrete file whose second line starts with
both prefixes. -/
theorem update_file_dual_line_witness :
    update_file ("ab").data ("a").data ("V").data
        ([("x\n").data] ++ (" abc\n").data :: [("a z\n").data])
      = [("x\n").data]
          ++ ("V").data :: (" abc\n").data
          :: updateLines ("ab").data ("a").data ("V").data true [("a z\n").data] :=
  update_file_dual_line ("ab").data ("a").data ("V").data (" abc\n").data
    [("x\n").data] [("a z\n").data] (by decide) (by decide) (by decide)

/-- A non-affirmative answer: anything whose lowercasing is neither `"y"`
nor `"yes"` makes `confirm` return false. -/
theorem confirm_eq_false_of_ne (answer : Str)
    (h1 : pyLower answer ≠ ("y").data) (h2 : pyLower answer ≠ ("yes").data) :
    confirm answer = false := by
  simp [confirm, h1, h2]

/-- A list is a `List.isPrefixOf`-prefix of itself followed by anything. -/
theorem isPrefixOf_append_self {α : Type} [DecidableEq α] (l m : List α) :
    List.isPrefixOf l (l ++ m) = true := by
  induction l with
  | nil => simp [List.isPrefixOf]
  | cons a as ih => simp [List.isPrefixOf, ih]

/-- When `validate_parent` passes, all four checked conditions hold. -/
theorem validate_parent_none_inv (pd : Str) (fs : FS)
    (h : validate_parent pd fs = none) :
    fs.parent_exists = true ∧ fs.parent_is_dir = true
      ∧ fs.cargo_lock_exists = true ∧ fs.cargo_toml_exists = true := by
  unfold validate_parent at h
  split at h
  case isTrue => simp at h
  case isFalse h1 =>
    split at h
    case isTrue => simp at h
    case isFalse h2 =>
      split at h
      case isTrue => simp at h
      case isFalse h3 =>
        simp only [Bool.or_eq_true, Bool.not_eq_true', not_or] at h1
        simp only [Bool.not_eq_true'] at h2 h3
        exact ⟨by simpa using h1.1, by simpa using h1.2, by simpa using h2,
          by simpa using h3⟩

/-- Claim C3: with the preconditions of the run satisfied up to the prompt,
a module directory that already exists plus a non-affirmative answer
(lowercased, anything other than "y" or "yes") makes the process exit with
status 0 and leaves the whole filesystem snapshot unchanged. -/
theorem decline_overwrite_no_mutation (day : Int) (title : Option Str)
    (no_fmt fmt_ok : Bool) (answer pd : Str) (fs : FS)
    (hval : validate_parent pd fs = none)
    (hsf : fs.src_is_file = false) (hse : fs.src_exists = true)
    (hmod : fs.mod_dir_exists = true)
    (h1 : pyLower answer ≠ ("y").data) (h2 : pyLower answer ≠ ("yes").data) :
    runMain day title no_fmt answer fmt_ok pd fs = (.exited 0, fs) := by
  have hc : confirm answer = false := confirm_eq_false_of_ne answer h1 h2
  simp [runMain, hval, hsf, hse, hmod, hc]

/-- A realistic `src/main.rs` line sequence used by the concrete checks. -/
def mainLines0 : List Str :=
  [("use std::env;\n").data,
   ("    let result = match args.day \x7b\n").data,
   ("        _ => unimplemented!(),\n").data,
   ("    \x7d;\n").data]

/-- A filesystem snapshot on which every precondition of the script holds
and the target module does not exist yet. -/
def fsGood : FS :=
  { parent_exists := true, parent_is_dir := true, cargo_lock_exists := true,
    cargo_toml_exists := true, src_exists := true, src_is_file := false,
    mod_dir_exists := false, mod_rs := none, main_exists := true,
    main_lines := mainLines0,
    solution_mod_lines := [("pub mod day01;\n").data] }

/-- `fsGood` with the target module directory already present. -/
def fsModExists : FS := { fsGood with mod_dir_exists := true }

/-- `fsGood` with the lockfile missing. -/
def fsNoLock : FS := { fsGood with cargo_lock_exists := false }

/-- Witness for claim C3: answering "no" on `fsModExists`. -/
theorem decline_overwrite_no_mutation_witness :
    runMain 2 none true ("no").data true ("..").data fsModExists
      = (.exited 0, fsModExists) :=
  decline_overwrite_no_mutation 2 none true true ("no").data ("..").data
    fsModExists (by decide) (by decide) (by decide) (by decide)
    (by decide) (by decide)

/-- Claim C4: a project root that does not exist, is not a directory, or
lacks `Cargo.lock` or `Cargo.toml` makes the run exit with status 1 after
printing a line starting with "error: ", with the filesystem untouched. -/
theorem invalid_parent_bails (day : Int) (title : Option Str)
    (no_fmt fmt_ok : Bool) (answer pd : Str) (fs : FS)
    (h : fs.parent_exists = false ∨ fs.parent_is_dir = false
        ∨ fs.cargo_lock_exists = false ∨ fs.cargo_toml_exists = false) :
    ∃ printed, runMain day title no_fmt answer fmt_ok pd fs
        = (.bailed printed 1, fs)
      ∧ List.isPrefixOf (("error: ").data) printed = true := by
  obtain ⟨msg, hm⟩ : ∃ m, validate_parent pd fs = some m := by
    cases e : validate_parent pd fs with
    | some m => exact ⟨m, rfl⟩
    | none =>
      have hv := validate_parent_none_inv pd fs e
      rcases h with h | h | h | h <;> simp [h] at hv
  refine ⟨("error: ").data ++ msg, ?_, isPrefixOf_append_self _ _⟩
  simp [runMain, hm, bailOut]

/-- Witness for claim C4: a root missing `Cargo.lock`. -/
theorem invalid_parent_bails_witness :
    ∃ printed, runMain 1 none true ("y").data true ("..").data fsNoLock
        = (.bailed printed 1, fsNoLock)
      ∧ List.isPrefixOf (("error: ").data) printed = true :=
  invalid_parent_bails 1 none true true ("y").data ("..").data fsNoLock
    (Or.inr (Or.inr (Or.inl rfl)))

/-- Claim C6 at its failing input (code bug): with every precondition
satisfied, an already-existing module directory and an affirmative answer,
`mod_dir.mkdir()` raises `FileExistsError`: the run aborts abnormally
instead of creating the module file, and no template is written. -/
theorem existing_module_confirmed_raises :
    runMain 1 none true ("y").data true ("..").data fsModExists
      = (.raised, fsModExists) := rfl

/-- Claim C7: the module-list append step appends exactly one declaration
line per run, so two runs for the same fresh day leave exactly two
occurrences of that declaration line. -/
theorem append_module_decl_twice (day : Int) (lines : List Str)
    (h : List.count (moduleDecl day) lines = 0) :
    appendModuleDecl day (appendModuleDecl day lines)
        = lines ++ [moduleDecl day, moduleDecl day]
      ∧ List.count (moduleDecl day)
          (appendModuleDecl day (appendModuleDecl day lines)) = 2
      ∧ (appendModuleDecl day lines).length = lines.length + 1 := by
  refine ⟨by simp [appendModuleDecl], ?_, by simp [appendModuleDecl]⟩
  simp [appendModuleDecl, List.count_append, h]

/-- Witness for claim C7: appending day 5 twice to a one-line module list. -/
theorem append_module_decl_twice_witness :
    appendModuleDecl 5 (appendModuleDecl 5 [("pub mod day01;\n").data])
        = [("pub mod day01;\n").data] ++ [moduleDecl 5, moduleDecl 5]
      ∧ List.count (moduleDecl 5)
          (appendModuleDecl 5 (appendModuleDecl 5 [("pub mod day01;\n").data])) = 2
      ∧ (appendModuleDecl 5 [("pub mod day01;\n").data]).length
          = [("pub mod day01;\n").data].length + 1 :=
  append_module_decl_twice 5 [("pub mod day01;\n").data] (by decide)

/-- Claim C10: the day number is never range-checked — for every integer
day, a run on a good filesystem completes successfully — and the module
name is "day" followed by the sign-aware zero-padded minimum-width-2
rendering of the day. -/
theorem day_never_validated :
    (∀ d : Int,
        (runMain d none true ([] : Str) true ("..").data fsGood).1 = .success)
      ∧ modName 1 = ("day01").data ∧ modName 0 = ("day00").data
      ∧ modName (-1) = ("day-1").data ∧ modName 100 = ("day100").data :=
  ⟨fun _ => rfl, by decide, by decide, by decide, by decide⟩

/-- `needle` occurs somewhere in `hay`: some tail of `hay` starts with it.
This is the formal reading of "the text contains ...". -/
def containsSub (needle hay : Str) : Bool :=
  hay.tails.any (fun t => List.isPrefixOf needle t)

/-- The documentation header rendered for day 3 with no title. -/
def hdrDay3 : Str :=
  ("//! Solution for Advent of Code 2023, Day 3.\n//!\n//! # Day 3\n//!\n").data

/-- The rendered text from the "Part One" heading to the end: both
placeholder sections and the whole code body. -/
def tailFromPartOne : Str :=
  ("//! ## Part One\n//!\n//! ## Part Two\n//!\n\nuse std::path::Path;\n\nuse anyhow::Result;\n\nfn part1() \x7b\n    println!(\"Part 1: TODO\");\n\x7d\n\nfn part2() \x7b\n    println!(\"Part 2: TODO\");\n\x7d\n\n/// Executes the solution with provided input file.\npub fn exec<P: AsRef<Path>>(_path: P) -> Result<()> \x7b\n    part1();\n    part2();\n\n    unimplemented!()\n\x7d\n").data

set_option maxRecDepth 40000 in
/-- Claim C5 counterexample: for day 3 with no title the render splits into
the documentation header and the rest from the "Part One" heading on, and
that rest — which contains both placeholder sections in full — has no
occurrence of "3".  So the day number does not appear in either placeholder
section. -/
theorem renderTemplate_day3_sections_lack_day :
    renderTemplate 3 (titleArgOf none) = hdrDay3 ++ tailFromPartOne
      ∧ containsSub (pyStr 3) tailFromPartOne = false := by
  constructor
  · decide
  · decide

/-- Claim C5 (amended): for every day number and title argument the
rendered text contains the decimal rendering of the day in the
documentation header — it stands immediately after the literal
"//! Solution for Advent of Code 2023, Day " opening the first line. -/
theorem renderTemplate_contains_day_in_header (day : Int) (t : Str) :
    List.isPrefixOf (pyStr day) (List.drop tmplSeg1.length (renderTemplate day t))
        = true
      ∧ containsSub (pyStr day) (renderTemplate day t) = true := by
  have hdecomp : renderTemplate day t
      = tmplSeg1 ++ (pyStr day ++ (tmplSeg2 ++ (pyStr day ++ (t ++ tmplSeg3)))) := by
    simp [renderTemplate, List.append_assoc]
  constructor
  · rw [hdecomp, List.drop_left]
    exact isPrefixOf_append_self _ _
  · unfold containsSub
    rw [List.any_eq_true]
    refine ⟨pyStr day ++ (tmplSeg2 ++ (pyStr day ++ (t ++ tmplSeg3))), ?_, ?_⟩
    · rw [List.mem_tails, hdecomp]
      exact List.suffix_append _ _
    · exact isPrefixOf_append_self _ _
